import Mathlib

/-!
Shallow embedding of the geo-tracking screen (IrfanArv/geo-tracking-app).

The repository has two screen variants in one source file plus an HTTP
client module:
  * a map-display variant (lines 84-225 of the unnamed source file), whose
    teardown effect (lines 141-147) clears the position watch;
  * an event-forwarding variant (lines 248-487), which owns the tracking
    session lifecycle: startTracking, stopTracking, the watchPosition
    callback, sendLocationEvent, and a teardown effect (lines 278-283)
    that closes the WebSocket;
  * fetchAddress (lines 523-538) and the axios instance (src/axios.ts).

Asynchronous platform interactions (permission dialog, one-shot position
read, position-stream callbacks, reverse-geocode HTTP responses) are
modelled by passing their outcomes as explicit inputs, and each operation
returns the list of events it emits (its calls to sendLocationEvent) so
that event counts and ordering can be stated.  JavaScript is
single-threaded, so the post-await effects of one callback (its state
update and its emission) run atomically; but the pending asynchronous
completions of a session — the one-shot read's callback and each stream
callback's awaited address resolution — may be delivered in any order.
That is modelled by `SessionTask` / `runTasks`: a schedule lists the
atomic completions in delivery order, and properties quantify over
schedules where the order matters.
-/

namespace GeoTracking

/-- Coordinates as produced by the position source (position.coords).
Latitude and longitude are modelled as rationals; the claims under
verification only involve exact values such as 0, 1 and 2. -/
structure Coords where
  latitude : ℚ
  longitude : ℚ
deriving DecidableEq, Repr

/-- A position delivered by the position stream.  The watch callback
guards on `!position || !position.coords`, so a delivered payload may
lack its coords object; a whole missing position is modelled at the use
site as an `Option Position`. -/
structure Position where
  coords : Option Coords
deriving DecidableEq, Repr

/-- The Location interface of the event-forwarding variant (lines
241-246): latitude, longitude, an optional timestamp (never set by the
code) and the serialized reverse-geocode data. -/
structure LocationRec where
  latitude : ℚ
  longitude : ℚ
  timestamp : Option String := none
  reverseData : String
deriving DecidableEq, Repr

/-- Device descriptor returned by getDeviceData (lines 254-260). -/
structure DeviceData where
  deviceId : String
  deviceName : String
  os : String
deriving DecidableEq, Repr

/-- The three tracking event kinds accepted by sendLocationEvent. -/
inductive EventType where
  | START
  | ONGOING
  | FINISH
deriving DecidableEq, Repr

/-- One call to sendLocationEvent: an emitted tracking event, before the
connection-state check decides whether a frame is transmitted. -/
structure Emit where
  eventType : EventType
  device : DeviceData
  location : Option LocationRec
deriving DecidableEq, Repr

/-- WebSocket ready states (the code compares against WebSocket.OPEN). -/
inductive ReadyState where
  | CONNECTING
  | OPEN
  | CLOSING
  | CLOSED
deriving DecidableEq, Repr

/-- The JSON payload sendLocationEvent builds (lines 409-418):
`event: 'locationUpdate'`, the spread device data, the event type, and
latitude / longitude / reverseData taken from the location argument
through JavaScript truthiness defaults. -/
structure Payload where
  event : String
  deviceId : String
  deviceName : String
  os : String
  eventType : EventType
  latitude : Option ℚ
  longitude : Option ℚ
  reverseData : String
deriving DecidableEq, Repr

/-- Payload construction of sendLocationEvent.  JavaScript
`location?.latitude || null` yields null when the location is null or
the latitude is 0 (0 is falsy); `location?.reverseData || 'Unknown'`
yields 'Unknown' when the location is null or the string is empty. -/
def mkPayload (eventType : EventType) (device : DeviceData)
    (location : Option LocationRec) : Payload :=
  { event := "locationUpdate"
    deviceId := device.deviceId
    deviceName := device.deviceName
    os := device.os
    eventType := eventType
    latitude :=
      match location with
      | none => none
      | some l => if l.latitude = 0 then none else some l.latitude
    longitude :=
      match location with
      | none => none
      | some l => if l.longitude = 0 then none else some l.longitude
    reverseData :=
      match location with
      | none => "Unknown"
      | some l => if l.reverseData = "" then "Unknown" else l.reverseData }

/-- sendLocationEvent (lines 404-427): builds the payload, then sends it
as one frame only if the WebSocket handle exists and its readyState is
OPEN; otherwise it only logs.  The returned list is the transmitted
frames: there is no queue and no retry, and the function is total (the
code never throws on a closed connection). -/
def sendLocationEvent (ws : Option ReadyState) (eventType : EventType)
    (device : DeviceData) (location : Option LocationRec) : List Payload :=
  if ws = some ReadyState.OPEN then [mkPayload eventType device location]
  else []

/-- A query-string value: axios params are either strings or numbers. -/
inductive QueryVal where
  | str (s : String)
  | num (q : ℚ)
deriving DecidableEq, Repr

/-- An HTTP GET request issued through the axios instance
reverseGeocodeApi (src/axios.ts lines 3-6: baseURL
https://nominatim.openstreetmap.org, timeout 10000ms). -/
structure GetRequest where
  baseURL : String
  path : String
  params : List (String × QueryVal)
deriving DecidableEq, Repr

/-- Failure of a reverse-geocode call: a non-2xx HTTP status (axios
rejects on those, e.g. a 500 response) or a transport-level error. -/
inductive FetchErr where
  | httpError (status : ℕ)
  | networkError
deriving DecidableEq, Repr

/-- The nominatim response body as used by the code: response.data has
an address object, modelled as a flat record of string fields (village,
municipality, county, state, ...). -/
structure ReverseResponse where
  address : List (String × String)
deriving DecidableEq, Repr

/-- One JSON object field, serialized. -/
def jsonField (p : String × String) : String :=
  "\"" ++ p.1 ++ "\":\"" ++ p.2 ++ "\""

/-- JSON.stringify restricted to the flat string-field objects of
`ReverseResponse.address`. -/
def jsonStringify (fields : List (String × String)) : String :=
  "\x7b" ++ String.intercalate "," (fields.map jsonField) ++ "\x7d"

/-- The single GET request fetchAddress issues (lines 525-527): path
'/reverse' with params written in source order
format='jsonv2', lat, lon. -/
def fetchAddressRequest (latitude longitude : ℚ) : GetRequest :=
  { baseURL := "https://nominatim.openstreetmap.org"
    path := "/reverse"
    params := [("format", QueryVal.str "jsonv2"),
               ("lat", QueryVal.num latitude),
               ("lon", QueryVal.num longitude)] }

/-- fetchAddress (lines 523-538): issues exactly one GET request; on a
successful response returns JSON.stringify of the response's address
field; on failure logs and rethrows the same error (the catch block does
not substitute any fallback).  The transport outcome is an explicit
input; the result pairs the issued requests with the returned or
propagated value. -/
def fetchAddress (latitude longitude : ℚ)
    (response : Except FetchErr ReverseResponse) :
    List GetRequest × Except FetchErr String :=
  ([fetchAddressRequest latitude longitude],
   response.map fun r => jsonStringify r.address)

/-- Session state of the event-forwarding variant: the tracking flag,
the watch handle ref, and the accumulated Location Record list shown in
the FlatList (retained, not cleared, when the session stops). -/
structure SessionState where
  tracking : Bool
  watchId : Option ℕ
  locations : List LocationRec
deriving DecidableEq, Repr

/-- Error object passed to a Geolocation error callback. -/
structure PosErr where
  code : ℕ
  message : String
deriving DecidableEq, Repr

/-- The emission performed when the one-shot
Geolocation.getCurrentPosition callback of startTracking completes
(lines 297-319): on a successful read the callback awaits fetchAddress
and emits START with the read coordinates — it has no try/catch, so a
fetchAddress rejection leaves the async callback without emitting
anything; on a failed read the error callback emits START with
coordinates (0,0) and reverseData 'Unknown'. -/
def oneShotEmits (device : DeviceData) (posResult : Except PosErr Coords)
    (startFetch : Except FetchErr String) : List Emit :=
  match posResult with
  | Except.ok c =>
    match startFetch with
    | Except.ok reverseData =>
      [{ eventType := EventType.START, device := device,
         location := some { latitude := c.latitude,
                            longitude := c.longitude,
                            reverseData := reverseData } }]
    | Except.error _ => []
  | Except.error _ =>
    [{ eventType := EventType.START, device := device,
       location := some { latitude := 0, longitude := 0,
                          reverseData := "Unknown" } }]

/-- startTracking of the event-forwarding variant (lines 285-361),
bundled with its one-shot completion.  Inputs model the awaited platform
interactions: the permission-request result, the device data, the
outcome of the one-shot Geolocation.getCurrentPosition read, the outcome
of the fetchAddress call made in its success callback, and the watch id
returned by Geolocation.watchPosition.  When permission is denied the
function alerts and returns with no state change and no event.
Otherwise it sets tracking, registers the position watch, and the
one-shot read completes with `oneShotEmits`.  This bundled form is the
state and emission once the one-shot completion has been delivered and
no stream completion has; the source does not order the one-shot
completion before the stream completions — `Geolocation.watchPosition`
is registered right after the non-blocking `getCurrentPosition` call,
whose START send additionally awaits fetchAddress — so general
interleavings are modelled by `startTrackingSync` and `runTasks`
below. -/
def startTracking (s : SessionState) (hasPermission : Bool)
    (device : DeviceData) (posResult : Except PosErr Coords)
    (startFetch : Except FetchErr String) (newWatchId : ℕ) :
    SessionState × List Emit :=
  if hasPermission = false then (s, [])
  else
    ({ s with tracking := true, watchId := some newWatchId },
     oneShotEmits device posResult startFetch)

/-- One position-stream callback of the event-forwarding variant (lines
322-348).  The callback returns after logging when the position or its
coords are missing; otherwise it awaits fetchAddress — the surrounding
try/catch turns a rejection into a log with no state change and no event
— then appends a Location Record and emits ONGOING. -/
def watchCallback (s : SessionState) (device : DeviceData)
    (position : Option Position) (fetch : Except FetchErr String) :
    SessionState × List Emit :=
  match position with
  | none => (s, [])
  | some p =>
    match p.coords with
    | none => (s, [])
    | some c =>
      match fetch with
      | Except.error _ => (s, [])
      | Except.ok reverseData =>
        let newRec : LocationRec :=
          { latitude := c.latitude, longitude := c.longitude,
            reverseData := reverseData }
        ({ s with locations := s.locations ++ [newRec] },
         [{ eventType := EventType.ONGOING, device := device,
            location := some newRec }])

/-- A sequence of atomic position-stream callback completions, in the
order their awaited fetchAddress calls resolve (each entry carries the
delivered position and the outcome of its own fetchAddress call).  Each
completion's append and emission run atomically, but when resolutions
overlap the completion order need not be the callback-arrival order:
properties about arrival order must quantify over the permutations of
the arrived callbacks that this list may be. -/
def runCallbacks (s : SessionState) (device : DeviceData) :
    List (Option Position × Except FetchErr String) →
    SessionState × List Emit
  | [] => (s, [])
  | cb :: rest =>
    let step := watchCallback s device cb.1 cb.2
    let rec2 := runCallbacks step.1 device rest
    (rec2.1, step.2 ++ rec2.2)

/-- Result of stopTracking or a teardown effect: the session state, the
emitted events, and the watch ids passed to Geolocation.clearWatch. -/
structure StopResult where
  state : SessionState
  emits : List Emit
  cleared : List ℕ
deriving DecidableEq, Repr

/-- The last known location stopTracking uses (lines 380-383): the last
element of the locations list, or the (0,0,'Unknown') default. -/
def lastKnown (s : SessionState) : LocationRec :=
  (s.locations.getLast?).getD
    { latitude := 0, longitude := 0, reverseData := "Unknown" }

/-- The guard of line 385: `!lastLocation.reverseData ||
lastLocation.reverseData === 'Unknown'` (the empty string is falsy). -/
def needsResolve (l : LocationRec) : Bool :=
  l.reverseData == "" || l.reverseData == "Unknown"

/-- In-place mutation of line 386: `lastLocation.reverseData = ...`
mutates the object aliased by the last element of the locations array
when that array is non-empty (when it is empty the mutated object is the
freshly built default, not part of the array). -/
def setLastReverse (l : List LocationRec) (rd : String) : List LocationRec :=
  match l.getLast? with
  | none => l
  | some x => l.dropLast ++ [{ x with reverseData := rd }]

/-- stopTracking of the event-forwarding variant (lines 363-402).  When
tracking is not active it logs and returns unchanged.  Otherwise it
clears the watch (if a handle exists), nulls the handle, resets the
tracking flag, takes the last known location, re-resolves its address
through fetchAddress when it is empty or 'Unknown' — a rejection there
is caught by the function's try/catch, so the FINISH event is never
emitted — and emits FINISH with that location. -/
def stopTracking (s : SessionState) (device : DeviceData)
    (stopFetch : Except FetchErr String) : StopResult :=
  if s.tracking = false then { state := s, emits := [], cleared := [] }
  else
    let cleared := s.watchId.toList
    let s1 := { s with watchId := none, tracking := false }
    let last := lastKnown s
    if needsResolve last then
      match stopFetch with
      | Except.error _ => { state := s1, emits := [], cleared := cleared }
      | Except.ok rd =>
        let last2 := { last with reverseData := rd }
        { state := { s1 with locations := setLastReverse s1.locations rd },
          emits := [{ eventType := EventType.FINISH, device := device,
                      location := some last2 }],
          cleared := cleared }
    else
      { state := s1,
        emits := [{ eventType := EventType.FINISH, device := device,
                    location := some last }],
        cleared := cleared }

/-- Geolocation.clearWatch acting on the platform's registry of active
watch ids: removing an id not in the registry is a no-op, so repeated
clearing is safe. -/
def clearWatch (active : List ℕ) (id : ℕ) : List ℕ :=
  active.filter fun x => x ≠ id

/-- Teardown effect of the map-display variant (lines 141-147): if the
watch handle is non-null, clear it; no event is emitted.  The handle ref
itself is not nulled by this cleanup. -/
def cleanupMapVariant (watchId : Option ℕ) (active : List ℕ) :
    List ℕ × List Emit :=
  match watchId with
  | some id => (clearWatch active id, [])
  | none => (active, [])

/-- Teardown effect of the event-forwarding variant (lines 278-283): if
the WebSocket handle exists, close it.  The position watch is not
touched and no event is emitted. -/
def cleanupEventVariant (ws : Option ReadyState) (active : List ℕ) :
    Option ReadyState × List ℕ × List Emit :=
  match ws with
  | some _ => (some ReadyState.CLOSED, active, [])
  | none => (none, active, [])

/-- A pending asynchronous completion of a tracking session: the
one-shot getCurrentPosition callback finishing (with the read's outcome
and, on a successful read, the outcome of its awaited fetchAddress
call), or one position-stream callback finishing (its delivered position
and the outcome of its awaited fetchAddress call).  The source code
imposes no order on these deliveries: watchPosition is registered right
after the non-blocking getCurrentPosition call, and every address
resolution is an independent HTTP request. -/
inductive SessionTask where
  | oneShot (posResult : Except PosErr Coords)
      (startFetch : Except FetchErr String)
  | stream (position : Option Position) (fetch : Except FetchErr String)
deriving Repr

/-- The events one pending completion emits; these depend only on the
completion itself, never on the session state it is applied to. -/
def taskEmits (device : DeviceData) : SessionTask → List Emit
  | SessionTask.oneShot posResult startFetch =>
    oneShotEmits device posResult startFetch
  | SessionTask.stream position fetch =>
    match position with
    | none => []
    | some p =>
      match p.coords with
      | none => []
      | some c =>
        match fetch with
        | Except.error _ => []
        | Except.ok reverseData =>
          [{ eventType := EventType.ONGOING, device := device,
             location := some { latitude := c.latitude,
                                longitude := c.longitude,
                                reverseData := reverseData } }]

/-- One pending completion applied atomically to the session:
JavaScript is single-threaded, so a callback's post-await effects run
without interleaving.  The one-shot completion only emits; a stream
completion is exactly the watch callback's body. -/
def applyTask (s : SessionState) (device : DeviceData) :
    SessionTask → SessionState × List Emit
  | SessionTask.oneShot posResult startFetch =>
    (s, oneShotEmits device posResult startFetch)
  | SessionTask.stream position fetch =>
    watchCallback s device position fetch

/-- A schedule: pending completions delivered one after another in the
given order, accumulating the emitted events. -/
def runTasks (s : SessionState) (device : DeviceData) :
    List SessionTask → SessionState × List Emit
  | [] => (s, [])
  | t :: rest =>
    let step := applyTask s device t
    let rest2 := runTasks step.1 device rest
    (rest2.1, step.2 ++ rest2.2)

/-- The synchronous part of startTracking (lines 285-361) under the
interleaved model: the permission gate, setTracking(true) and the
watchPosition registration all run before any pending completion is
delivered; the one-shot completion and the stream completions then
arrive as a schedule of SessionTasks. -/
def startTrackingSync (s : SessionState) (hasPermission : Bool)
    (newWatchId : ℕ) : SessionState :=
  if hasPermission = false then s
  else { s with tracking := true, watchId := some newWatchId }

/-- The empty Idle session, for concrete instantiations. -/
def idle0 : SessionState :=
  { tracking := false, watchId := none, locations := [] }

/-- A Tracking-state session with an empty history and watch 1, for
concrete instantiations. -/
def tracking0 : SessionState :=
  { tracking := true, watchId := some 1, locations := [] }

/-- A fixed device descriptor for concrete instantiations. -/
def devA : DeviceData :=
  { deviceId := "device-1", deviceName := "Pixel", os := "Android 14" }

/-- A sample resolved Location Record for concrete instantiations. -/
def recA : LocationRec :=
  { latitude := 1, longitude := 2, reverseData := "addr" }

/-- A sample Tracking-state session holding watch 3 and one resolved
record, for concrete instantiations. -/
def trackingA : SessionState :=
  { tracking := true, watchId := some 3, locations := [recA] }

/-- A sample Idle-state session with a stale handle and history, for
concrete instantiations. -/
def idleA : SessionState :=
  { tracking := false, watchId := some 9, locations := [recA] }

/-- The Location Record a resolved callback appends: the callback's
coordinates together with its fetched address. -/
def recordOf (p : Coords × String) : LocationRec :=
  { latitude := p.1.latitude, longitude := p.1.longitude,
    reverseData := p.2 }

/-- Every event a single position-stream callback emits is ONGOING. -/
theorem watchCallback_emits_ongoing (s : SessionState) (device : DeviceData)
    (position : Option Position) (fetch : Except FetchErr String) :
    ∀ ev ∈ (watchCallback s device position fetch).2,
      ev.eventType = EventType.ONGOING := by
  cases position with
  | none => simp [watchCallback]
  | some p =>
    cases hp : p.coords with
    | none => simp [watchCallback, hp]
    | some c =>
      cases fetch with
      | error e => simp [watchCallback, hp]
      | ok rd => simp [watchCallback, hp]

/-- The events a completion emits do not depend on the session state it
is applied to. -/
theorem applyTask_emits (s : SessionState) (device : DeviceData)
    (t : SessionTask) : (applyTask s device t).2 = taskEmits device t := by
  cases t with
  | oneShot posResult startFetch => rfl
  | stream position fetch =>
    cases position with
    | none => rfl
    | some p =>
      cases hp : p.coords with
      | none => simp [applyTask, watchCallback, taskEmits, hp]
      | some c =>
        cases fetch with
        | error e => simp [applyTask, watchCallback, taskEmits, hp]
        | ok rd => simp [applyTask, watchCallback, taskEmits, hp]

/-- Every event a stream completion emits is ONGOING. -/
theorem taskEmits_stream_ongoing (device : DeviceData)
    (position : Option Position) (fetch : Except FetchErr String) :
    ∀ ev ∈ taskEmits device (SessionTask.stream position fetch),
      ev.eventType = EventType.ONGOING := by
  intro ev hev
  rw [← applyTask_emits idle0 device] at hev
  exact watchCallback_emits_ongoing idle0 device position fetch ev hev

/-- The trace of a schedule is the concatenation of its tasks'
emissions, in schedule order. -/
theorem runTasks_trace (device : DeviceData) (sched : List SessionTask) :
    ∀ s : SessionState,
      (runTasks s device sched).2 = (sched.map (taskEmits device)).flatten := by
  induction sched with
  | nil => intro s; rfl
  | cons t rest ih =>
    intro s
    simp only [runTasks, List.map_cons, List.flatten_cons]
    rw [applyTask_emits, ih]

/-- When the one-shot read fails, or succeeds with its address
resolution also succeeding, its completion emits exactly one START
event. -/
theorem oneShotEmits_one_start (device : DeviceData)
    (posResult : Except PosErr Coords)
    (startFetch : Except FetchErr String)
    (hOk : (∃ e, posResult = Except.error e) ∨
           (∃ a, startFetch = Except.ok a)) :
    ∃ l, oneShotEmits device posResult startFetch =
      [{ eventType := EventType.START, device := device,
         location := some l }] := by
  rcases hOk with ⟨e, he⟩ | ⟨a, ha⟩
  · subst he
    exact ⟨{ latitude := 0, longitude := 0, reverseData := "Unknown" }, rfl⟩
  · cases posResult with
    | error e =>
      exact ⟨{ latitude := 0, longitude := 0, reverseData := "Unknown" }, rfl⟩
    | ok c =>
      subst ha
      exact ⟨{ latitude := c.latitude, longitude := c.longitude,
               reverseData := a }, rfl⟩

/-- C1 counterexample.  First conjunct: permission granted, the one-shot
read succeeds with (1,2), but the awaited fetchAddress call in its
success callback rejects — the callback has no try/catch, so the session
emits no START event at all, refuting "exactly one START event is
emitted".  Second conjunct: the one-shot read fails, and a stream
callback's address resolution completes before the one-shot callback is
delivered (nothing in the source orders them: watchPosition is
registered right after the non-blocking getCurrentPosition call) — the
session trace is an ONGOING event followed by the START event, refuting
"that START event is emitted before any ONGOING event of the same
session". -/
theorem startTracking_start_cex :
    (runTasks (startTrackingSync idle0 true 7) devA
        [SessionTask.oneShot (Except.ok { latitude := 1, longitude := 2 })
           (Except.error FetchErr.networkError)]).2 = [] ∧
    (runTasks (startTrackingSync idle0 true 7) devA
        [SessionTask.stream
           (some { coords := some { latitude := 3, longitude := 4 } })
           (Except.ok "addr"),
         SessionTask.oneShot
           (Except.error { code := 2, message := "unavailable" })
           (Except.ok "unused")]).2 =
      [{ eventType := EventType.ONGOING, device := devA,
         location := some { latitude := 3, longitude := 4,
                            reverseData := "addr" } },
       { eventType := EventType.START, device := devA,
         location := some { latitude := 0, longitude := 0,
                            reverseData := "Unknown" } }] := by
  constructor <;> rfl

/-- C1 (amended): for every invocation of startTracking with permission
granted, the session transitions from Idle to Tracking; provided the
one-shot position read fails, or succeeds with its address resolution
also succeeding, exactly one START event is emitted — in every order in
which the session's pending completions are delivered; and the START
event precedes all ONGOING events in those schedules that deliver the
one-shot completion first (an order the source does not enforce). -/
theorem startTracking_granted_unique_start (s : SessionState)
    (device : DeviceData) (posResult : Except PosErr Coords)
    (startFetch : Except FetchErr String) (newWatchId : ℕ)
    (sched : List SessionTask)
    (streams : List (Option Position × Except FetchErr String))
    (hIdle : s.tracking = false)
    (hsched : List.Perm sched
      (SessionTask.oneShot posResult startFetch ::
        streams.map fun cb => SessionTask.stream cb.1 cb.2))
    (hOk : (∃ e, posResult = Except.error e) ∨
           (∃ a, startFetch = Except.ok a)) :
    (startTrackingSync s true newWatchId).tracking = true ∧
    ((runTasks (startTrackingSync s true newWatchId) device sched).2.countP
      fun ev => decide (ev.eventType = EventType.START)) = 1 ∧
    (∃ l rest,
      (runTasks (startTrackingSync s true newWatchId) device
        (SessionTask.oneShot posResult startFetch ::
          streams.map fun cb => SessionTask.stream cb.1 cb.2)).2 =
        { eventType := EventType.START, device := device,
          location := some l } :: rest ∧
      ∀ ev ∈ rest, ev.eventType = EventType.ONGOING) := by
  obtain ⟨l, hl⟩ := oneShotEmits_one_start device posResult startFetch hOk
  refine ⟨by simp [startTrackingSync], ?_, ?_⟩
  · have hsum : List.Perm
        (sched.map fun t => (taskEmits device t).countP
          fun ev => decide (ev.eventType = EventType.START))
        ((SessionTask.oneShot posResult startFetch ::
            streams.map fun cb => SessionTask.stream cb.1 cb.2).map
          fun t => (taskEmits device t).countP
            fun ev => decide (ev.eventType = EventType.START)) :=
      hsched.map _
    have h1 : ((taskEmits device
        (SessionTask.oneShot posResult startFetch)).countP
        fun ev => decide (ev.eventType = EventType.START)) = 1 := by
      simp [taskEmits, hl]
    have h2 : ((streams.map fun cb => SessionTask.stream cb.1 cb.2).map
        fun t => (taskEmits device t).countP
          fun ev => decide (ev.eventType = EventType.START)).sum = 0 := by
      refine List.sum_eq_zero ?_
      intro x hx
      simp only [List.map_map, List.mem_map, Function.comp] at hx
      obtain ⟨cb, _, hcb⟩ := hx
      subst hcb
      refine List.countP_eq_zero.mpr ?_
      intro ev hev
      have := taskEmits_stream_ongoing device cb.1 cb.2 ev hev
      simp [this]
    rw [runTasks_trace, List.countP_flatten, List.map_map]
    simp only [Function.comp_def]
    rw [hsum.sum_eq]
    simp only [List.map_cons, List.sum_cons]
    rw [h1, h2]
  · refine ⟨l, ((streams.map fun cb =>
      SessionTask.stream cb.1 cb.2).map (taskEmits device)).flatten, ?_, ?_⟩
    · rw [runTasks_trace]
      simp only [List.map_cons, List.flatten_cons, taskEmits, hl]
      rfl
    · intro ev hev
      rw [List.mem_flatten] at hev
      obtain ⟨a, ha, heva⟩ := hev
      rw [List.mem_map] at ha
      obtain ⟨t, ht, hta⟩ := ha
      rw [List.mem_map] at ht
      obtain ⟨cb, _, hcb⟩ := ht
      subst hcb
      subst hta
      exact taskEmits_stream_ongoing device cb.1 cb.2 ev heva

/-- C1 witness: a concrete granted invocation from the empty Idle state
whose one-shot read fails, with one stream callback, under the schedule
that delivers the stream completion first. -/
theorem startTracking_granted_unique_start_witness :
    (startTrackingSync idle0 true 1).tracking = true ∧
    ((runTasks (startTrackingSync idle0 true 1) devA
        [SessionTask.stream
           (some { coords := some { latitude := 3, longitude := 4 } })
           (Except.ok "addr"),
         SessionTask.oneShot
           (Except.error { code := 2, message := "unavailable" })
           (Except.ok "unused")]).2.countP
      fun ev => decide (ev.eventType = EventType.START)) = 1 ∧
    (∃ l rest,
      (runTasks (startTrackingSync idle0 true 1) devA
        (SessionTask.oneShot
            (Except.error { code := 2, message := "unavailable" })
            (Except.ok "unused") ::
          [((some { coords := some { latitude := 3, longitude := 4 } }
              : Option Position),
            (Except.ok "addr" : Except FetchErr String))].map
            fun cb => SessionTask.stream cb.1 cb.2)).2 =
        { eventType := EventType.START, device := devA,
          location := some l } :: rest ∧
      ∀ ev ∈ rest, ev.eventType = EventType.ONGOING) :=
  startTracking_granted_unique_start idle0 devA
    (Except.error { code := 2, message := "unavailable" })
    (Except.ok "unused") 1
    [SessionTask.stream
       (some { coords := some { latitude := 3, longitude := 4 } })
       (Except.ok "addr"),
     SessionTask.oneShot
       (Except.error { code := 2, message := "unavailable" })
       (Except.ok "unused")]
    [(some { coords := some { latitude := 3, longitude := 4 } },
      Except.ok "addr")]
    rfl
    (List.Perm.swap
      (SessionTask.oneShot
        (Except.error { code := 2, message := "unavailable" })
        (Except.ok "unused"))
      (SessionTask.stream
        (some { coords := some { latitude := 3, longitude := 4 } })
        (Except.ok "addr"))
      [])
    (Or.inl ⟨{ code := 2, message := "unavailable" }, rfl⟩)

/-- C7: when the one-shot current-position read fails, startTracking
(with permission granted) still emits exactly one START event, carrying
coordinates (0,0) and address "Unknown", and the session still
transitions to Tracking. -/
theorem startTracking_posFailure_start (s : SessionState)
    (device : DeviceData) (err : PosErr)
    (startFetch : Except FetchErr String) (newWatchId : ℕ) :
    (startTracking s true device (Except.error err) startFetch newWatchId).2 =
      [{ eventType := EventType.START, device := device,
         location := some { latitude := 0, longitude := 0,
                            reverseData := "Unknown" } }] ∧
    (startTracking s true device (Except.error err) startFetch newWatchId).1.tracking
      = true := by
  constructor <;> rfl

/-- C9: a position-stream callback whose position is well-formed but
whose fetchAddress call rejects leaves the session state unchanged and
emits no event: the try/catch only logs the error. -/
theorem watchCallback_fetchFailure_noop (s : SessionState)
    (device : DeviceData) (c : Coords) (e : FetchErr) :
    watchCallback s device (some { coords := some c }) (Except.error e)
      = (s, []) := rfl

/-- C2 counterexample: stopTracking called while Tracking (here with an
empty history, so the (0,0,'Unknown') default requires re-resolution)
whose fetchAddress call rejects: the catch block swallows the error, so
no FINISH event is emitted even though the subscription was cancelled
and tracking was reset — refuting "exactly one FINISH event is
emitted". -/
theorem stopTracking_refetchFailure_noFinish :
    stopTracking { tracking := true, watchId := some 3, locations := [] }
        devA (Except.error FetchErr.networkError) =
      { state := { tracking := false, watchId := none, locations := [] },
        emits := [], cleared := [3] } := rfl

/-- C2 (amended): stopTracking called while Tracking always cancels the
subscription (clearWatch on the held handle, handle nulled) and resets
tracking to false; and provided the last known location's address is
already resolved, or the re-resolving fetchAddress call succeeds,
exactly one FINISH event is emitted, carrying the last known location's
coordinates. -/
theorem stopTracking_tracking_finish (s : SessionState)
    (device : DeviceData) (stopFetch : Except FetchErr String)
    (hTr : s.tracking = true)
    (hOk : needsResolve (lastKnown s) = false ∨
           ∃ rd, stopFetch = Except.ok rd) :
    (stopTracking s device stopFetch).state.tracking = false ∧
    (stopTracking s device stopFetch).state.watchId = none ∧
    (stopTracking s device stopFetch).cleared = s.watchId.toList ∧
    ∃ l, (stopTracking s device stopFetch).emits =
        [{ eventType := EventType.FINISH, device := device,
           location := some l }] ∧
      l.latitude = (lastKnown s).latitude ∧
      l.longitude = (lastKnown s).longitude := by
  have hnot : ¬ s.tracking = false := by simp [hTr]
  rcases hOk with hres | ⟨rd, hrd⟩
  · refine ⟨?_, ?_, ?_, lastKnown s, ?_, rfl, rfl⟩ <;>
      simp [stopTracking, hnot, hres]
  · subst hrd
    by_cases hres : needsResolve (lastKnown s)
    · refine ⟨?_, ?_, ?_, { lastKnown s with reverseData := rd }, ?_,
        rfl, rfl⟩ <;> simp [stopTracking, hnot, hres]
    · refine ⟨?_, ?_, ?_, lastKnown s, ?_, rfl, rfl⟩ <;>
        simp [stopTracking, hnot, hres]

/-- C2 witness: concrete Tracking state with one fully resolved record;
stopTracking cancels watch 3, resets tracking and emits one FINISH. -/
theorem stopTracking_tracking_finish_witness :
    (stopTracking trackingA devA
        (Except.error FetchErr.networkError)).state.tracking = false ∧
    (stopTracking trackingA devA
        (Except.error FetchErr.networkError)).state.watchId = none ∧
    (stopTracking trackingA devA
        (Except.error FetchErr.networkError)).cleared =
      trackingA.watchId.toList ∧
    ∃ l, (stopTracking trackingA devA
        (Except.error FetchErr.networkError)).emits =
        [{ eventType := EventType.FINISH, device := devA,
           location := some l }] ∧
      l.latitude = (lastKnown trackingA).latitude ∧
      l.longitude = (lastKnown trackingA).longitude :=
  stopTracking_tracking_finish trackingA devA
    (Except.error FetchErr.networkError) rfl (Or.inl rfl)

/-- C4: stopTracking called while Idle (tracking = false) is a no-op:
it returns before touching anything, so no event is emitted, no
clearWatch call is made, and the watch handle, location history and
tracking flag are all unchanged. -/
theorem stopTracking_idle_noop (s : SessionState) (device : DeviceData)
    (stopFetch : Except FetchErr String) (h : s.tracking = false) :
    stopTracking s device stopFetch =
      { state := s, emits := [], cleared := [] } := by
  simp [stopTracking, h]

/-- C4 witness: a concrete Idle state (with a stale handle and history)
on which stopTracking changes nothing. -/
theorem stopTracking_idle_noop_witness :
    stopTracking idleA devA (Except.ok "other") =
      { state := idleA, emits := [], cleared := [] } :=
  stopTracking_idle_noop idleA devA (Except.ok "other") rfl

/-- A run of resolved, well-formed callback completions, executed in the
order given, appends one record per completion in that order and emits
one ONGOING event per completion in the same order. -/
theorem runCallbacks_resolved_eq (s : SessionState)
    (device : DeviceData) (ds : List (Coords × String)) :
    runCallbacks s device
        (ds.map fun p => (some { coords := some p.1 }, Except.ok p.2)) =
      ({ s with locations := s.locations ++ ds.map recordOf },
       ds.map fun p =>
         { eventType := EventType.ONGOING, device := device,
           location := some (recordOf p) }) := by
  induction ds generalizing s with
  | nil => simp [runCallbacks]
  | cons p rest ih =>
    simp only [List.map_cons, runCallbacks, watchCallback]
    rw [ih]
    simp [recordOf, List.append_assoc]

/-- C3 counterexample.  First conjunct: a single position-stream
callback delivered while Tracking, carrying a well-formed position with
coords (1,2) — not malformed — whose fetchAddress call rejects: no
Location Record is appended and no ONGOING event is emitted, refuting
"exactly N Location Records are appended ... and exactly N ONGOING
events are emitted" for N = 1.  Remaining conjuncts: two well-formed
callbacks arrive as (1,2) then (5,6), but (5,6)'s address resolution
completes first; since each callback appends only after its own await,
the records land in completion order (5,6) then (1,2) — not the
callback-arrival order — refuting "appended ... in callback-arrival
order". -/
theorem runCallbacks_order_fetch_cex :
    runCallbacks tracking0 devA
        [(some { coords := some { latitude := 1, longitude := 2 } },
          Except.error FetchErr.networkError)] =
      (tracking0, []) ∧
    runCallbacks tracking0 devA
        [(some { coords := some { latitude := 5, longitude := 6 } },
          Except.ok "a2"),
         (some { coords := some { latitude := 1, longitude := 2 } },
          Except.ok "a1")] =
      ({ tracking0 with locations :=
          [{ latitude := 5, longitude := 6, reverseData := "a2" },
           { latitude := 1, longitude := 2, reverseData := "a1" }] },
       [{ eventType := EventType.ONGOING, device := devA,
          location := some { latitude := 5, longitude := 6,
                             reverseData := "a2" } },
        { eventType := EventType.ONGOING, device := devA,
          location := some { latitude := 1, longitude := 2,
                             reverseData := "a1" } }]) ∧
    ([{ latitude := 5, longitude := 6, reverseData := "a2" },
      { latitude := 1, longitude := 2, reverseData := "a1" }]
        : List LocationRec) ≠
      [{ latitude := 1, longitude := 2, reverseData := "a1" },
       { latitude := 5, longitude := 6, reverseData := "a2" }] := by
  refine ⟨rfl, rfl, ?_⟩
  decide

/-- C3 (amended): for every sequence of N position-stream callbacks
delivered while the session is Tracking, none of which is malformed and
each of which has a successful address resolution, and for every order
in which those resolutions complete (any permutation of the arrival
order), exactly N Location Records are appended and exactly N ONGOING
events are emitted, one per callback; the records are appended in
completion order — a permutation of the callback-arrival records, each
append atomic with its ONGOING emission — so the append order is the
fetch-completion order, not necessarily the callback-arrival order. -/
theorem runCallbacks_resolved_perm (s : SessionState)
    (device : DeviceData) (cbs ds : List (Coords × String))
    (hTr : s.tracking = true) (hds : List.Perm ds cbs) :
    runCallbacks s device
        (ds.map fun p => (some { coords := some p.1 }, Except.ok p.2)) =
      ({ s with locations := s.locations ++ ds.map recordOf },
       ds.map fun p =>
         { eventType := EventType.ONGOING, device := device,
           location := some (recordOf p) }) ∧
    (ds.map recordOf).length = cbs.length ∧
    List.Perm (ds.map recordOf) (cbs.map recordOf) := by
  refine ⟨runCallbacks_resolved_eq s device ds, ?_, hds.map recordOf⟩
  simp [hds.length_eq]

/-- C3 witness: callbacks arrive as (1,2) then (5,6) in a Tracking
state, and their resolutions complete in the reversed order. -/
theorem runCallbacks_resolved_perm_witness :
    runCallbacks trackingA devA
        ([({ latitude := 5, longitude := 6 }, "a2"),
          ({ latitude := 1, longitude := 2 }, "a1")].map
          fun p => (some { coords := some p.1 }, Except.ok p.2)) =
      ({ trackingA with locations := trackingA.locations ++
          [({ latitude := 5, longitude := 6 }, "a2"),
           ({ latitude := 1, longitude := 2 }, "a1")].map recordOf },
       [({ latitude := 5, longitude := 6 }, "a2"),
        ({ latitude := 1, longitude := 2 }, "a1")].map fun p =>
         { eventType := EventType.ONGOING, device := devA,
           location := some (recordOf p) }) ∧
    (([({ latitude := 5, longitude := 6 }, "a2"),
       ({ latitude := 1, longitude := 2 }, "a1")]
        : List (Coords × String)).map recordOf).length =
      ([({ latitude := 1, longitude := 2 }, "a1"),
        ({ latitude := 5, longitude := 6 }, "a2")]
        : List (Coords × String)).length ∧
    List.Perm
      (([({ latitude := 5, longitude := 6 }, "a2"),
         ({ latitude := 1, longitude := 2 }, "a1")]
          : List (Coords × String)).map recordOf)
      (([({ latitude := 1, longitude := 2 }, "a1"),
         ({ latitude := 5, longitude := 6 }, "a2")]
          : List (Coords × String)).map recordOf) :=
  runCallbacks_resolved_perm trackingA devA
    [({ latitude := 1, longitude := 2 }, "a1"),
     ({ latitude := 5, longitude := 6 }, "a2")]
    [({ latitude := 5, longitude := 6 }, "a2"),
     ({ latitude := 1, longitude := 2 }, "a1")]
    rfl
    (List.Perm.swap (({ latitude := 1, longitude := 2 } : Coords), "a1")
      (({ latitude := 5, longitude := 6 } : Coords), "a2") [])

/-- C5: a call to sendLocationEvent made while the WebSocket handle is
missing or its readyState is not OPEN transmits no frame.  The function
is total — the closed-connection branch only logs — and the model has no
queue: a dropped event is never stored or retried. -/
theorem sendLocationEvent_notOpen_noFrame (ws : Option ReadyState)
    (eventType : EventType) (device : DeviceData)
    (location : Option LocationRec) (h : ws ≠ some ReadyState.OPEN) :
    sendLocationEvent ws eventType device location = [] := by
  simp [sendLocationEvent, h]

/-- C5 witness: a closed connection transmits no frame. -/
theorem sendLocationEvent_notOpen_noFrame_witness :
    sendLocationEvent (some ReadyState.CLOSED) EventType.ONGOING devA
      (some recA) = [] :=
  sendLocationEvent_notOpen_noFrame (some ReadyState.CLOSED)
    EventType.ONGOING devA (some recA) (by simp)

/-- C6: for every pair of coordinates, fetchAddress issues exactly one
GET request, to the nominatim base URL's /reverse path, whose query
parameters are exactly lat, lon and format=jsonv2 (stated up to
parameter order; for lat=0, lon=0 they are lat=0, lon=0,
format=jsonv2); on a successful response it returns the JSON-serialized
address field of the response body, and on any failure — a 500 response
included — it propagates that same failure to the caller instead of
returning a fallback value. -/
theorem fetchAddress_request_result (latitude longitude : ℚ)
    (r : ReverseResponse) (e : FetchErr) :
    (∀ response : Except FetchErr ReverseResponse,
      (fetchAddress latitude longitude response).1 =
        [fetchAddressRequest latitude longitude]) ∧
    (fetchAddressRequest latitude longitude).baseURL =
      "https://nominatim.openstreetmap.org" ∧
    (fetchAddressRequest latitude longitude).path = "/reverse" ∧
    List.Perm (fetchAddressRequest latitude longitude).params
      [("lat", QueryVal.num latitude), ("lon", QueryVal.num longitude),
       ("format", QueryVal.str "jsonv2")] ∧
    List.Perm (fetchAddressRequest 0 0).params
      [("lat", QueryVal.num 0), ("lon", QueryVal.num 0),
       ("format", QueryVal.str "jsonv2")] ∧
    (fetchAddress latitude longitude (Except.ok r)).2 =
      Except.ok (jsonStringify r.address) ∧
    (fetchAddress latitude longitude (Except.error e)).2 =
      Except.error e ∧
    (fetchAddress latitude longitude
        (Except.error (FetchErr.httpError 500))).2 =
      Except.error (FetchErr.httpError 500) := by
  refine ⟨fun response => rfl, rfl, rfl, ?_, ?_, rfl, rfl, rfl⟩
  · exact List.Perm.trans
      (List.Perm.swap ("lat", QueryVal.num latitude)
        ("format", QueryVal.str "jsonv2") [("lon", QueryVal.num longitude)])
      (List.Perm.cons ("lat", QueryVal.num latitude)
        (List.Perm.swap ("lon", QueryVal.num longitude)
          ("format", QueryVal.str "jsonv2") []))
  · exact List.Perm.trans
      (List.Perm.swap ("lat", QueryVal.num 0)
        ("format", QueryVal.str "jsonv2") [("lon", QueryVal.num 0)])
      (List.Perm.cons ("lat", QueryVal.num 0)
        (List.Perm.swap ("lon", QueryVal.num 0)
          ("format", QueryVal.str "jsonv2") []))

/-- C8 counterexample: the event-forwarding variant's teardown effect,
run while watch 5 is active, closes the WebSocket but leaves the
active-watch registry unchanged — even though clearing the held handle
would have emptied it — refuting "if a position-subscription handle
exists it is cancelled" for that variant. -/
theorem cleanupEventVariant_leavesWatch :
    (cleanupEventVariant (some ReadyState.OPEN) [5]).2.1 = [5] ∧
    clearWatch [5] 5 = [] ∧
    (cleanupEventVariant (some ReadyState.OPEN) [5]).2.2 = [] := by
  refine ⟨rfl, ?_, rfl⟩
  decide

/-- C8 (amended): at component teardown, the map-display variant's
cleanup cancels the position subscription whenever a handle exists, and
repeating that cancellation is safe (a second run changes nothing); the
event-forwarding variant's cleanup closes the WebSocket but does not
cancel the position subscription; neither teardown emits any event, in
particular no FINISH. -/
theorem cleanup_teardown (watchId : Option ℕ) (active : List ℕ)
    (ws : Option ReadyState) (id : ℕ) (h : watchId = some id) :
    id ∉ (cleanupMapVariant watchId active).1 ∧
    (cleanupMapVariant watchId active).2 = [] ∧
    cleanupMapVariant watchId (cleanupMapVariant watchId active).1 =
      cleanupMapVariant watchId active ∧
    (cleanupEventVariant ws active).2.1 = active ∧
    (cleanupEventVariant ws active).2.2 = [] := by
  subst h
  refine ⟨?_, rfl, ?_, ?_, ?_⟩
  · simp [cleanupMapVariant, clearWatch]
  · simp only [cleanupMapVariant, clearWatch]
    rw [List.filter_filter]
    simp
  · cases ws <;> rfl
  · cases ws <;> rfl

/-- C8 witness: concrete teardown with handle 5 held and watch 5 active,
for both variants' cleanup effects. -/
theorem cleanup_teardown_witness :
    (5 : ℕ) ∉ (cleanupMapVariant (some 5) [5]).1 ∧
    (cleanupMapVariant (some 5) [5]).2 = [] ∧
    cleanupMapVariant (some 5) (cleanupMapVariant (some 5) [5]).1 =
      cleanupMapVariant (some 5) [5] ∧
    (cleanupEventVariant (some ReadyState.OPEN) [5]).2.1 = [5] ∧
    (cleanupEventVariant (some ReadyState.OPEN) [5]).2.2 = [] :=
  cleanup_teardown (some 5) [5] (some ReadyState.OPEN) 5 rfl

/-- C10: the payload sendLocationEvent builds maps a null location to
null latitude and longitude and reverseData "Unknown"; a latitude
(respectively longitude) equal to 0 also becomes null rather than 0, and
an empty reverseData string becomes "Unknown" (JavaScript || treats 0
and "" as falsy); in particular the location (0,0,"Unknown") that the
START event carries after a failed position read yields a payload with
latitude null and longitude null. -/
theorem sendLocationEvent_payload_truthiness (eventType : EventType)
    (device : DeviceData) (la lb lc : LocationRec)
    (ha : la.latitude = 0) (hb : lb.longitude = 0)
    (hc : lc.reverseData = "") :
    (mkPayload eventType device none).latitude = none ∧
    (mkPayload eventType device none).longitude = none ∧
    (mkPayload eventType device none).reverseData = "Unknown" ∧
    (mkPayload eventType device (some la)).latitude = none ∧
    (mkPayload eventType device (some lb)).longitude = none ∧
    (mkPayload eventType device (some lc)).reverseData = "Unknown" ∧
    (mkPayload EventType.START device
      (some { latitude := 0, longitude := 0,
              reverseData := "Unknown" })).latitude = none ∧
    (mkPayload EventType.START device
      (some { latitude := 0, longitude := 0,
              reverseData := "Unknown" })).longitude = none := by
  refine ⟨rfl, rfl, rfl, ?_, ?_, ?_, rfl, rfl⟩ <;>
    simp [mkPayload, ha, hb, hc]

/-- C10 witness: a concrete location with latitude 0, longitude 0 and
empty reverseData is sent as null / null / "Unknown". -/
theorem sendLocationEvent_payload_truthiness_witness :
    (mkPayload EventType.ONGOING devA none).latitude = none ∧
    (mkPayload EventType.ONGOING devA none).longitude = none ∧
    (mkPayload EventType.ONGOING devA none).reverseData = "Unknown" ∧
    (mkPayload EventType.ONGOING devA
      (some { latitude := 0, longitude := 7,
              reverseData := "x" })).latitude = none ∧
    (mkPayload EventType.ONGOING devA
      (some { latitude := 7, longitude := 0,
              reverseData := "x" })).longitude = none ∧
    (mkPayload EventType.ONGOING devA
      (some { latitude := 7, longitude := 7,
              reverseData := "" })).reverseData = "Unknown" ∧
    (mkPayload EventType.START devA
      (some { latitude := 0, longitude := 0,
              reverseData := "Unknown" })).latitude = none ∧
    (mkPayload EventType.START devA
      (some { latitude := 0, longitude := 0,
              reverseData := "Unknown" })).longitude = none :=
  sendLocationEvent_payload_truthiness EventType.ONGOING devA
    { latitude := 0, longitude := 7, reverseData := "x" }
    { latitude := 7, longitude := 0, reverseData := "x" }
    { latitude := 7, longitude := 7, reverseData := "" }
    rfl rfl rfl

end GeoTracking
